import Mathlib

/-!
Shallow embedding of simple::vector from src/include/simple/vector.h.
The container state is the sequence of live elements (the slots in
[m_begin, m_end)) together with the capacity (m_realend - m_begin).
Where a claim talks about element operations or allocations, the embedded
operation also returns the counts of element constructions, element
destructions, element assignments, and block allocations it performed.
-/

namespace Simple

variable {α : Type}

/-- Container state: data models the live slots [m_begin, m_end) and cap
models m_realend - m_begin. The pointer values themselves are abstracted; a
null m_begin corresponds to cap = 0 together with data = []. size() is
m_end - m_begin, hence data.length, and capacity() is m_realend - m_begin,
hence cap. Broken states with m_end beyond m_realend appear as
data.length exceeding cap. -/
structure Vec (α : Type) where
  data : List α
  cap : Nat
  deriving DecidableEq

/-- Translation of size() (line 404): m_end - m_begin. -/
def Vec.size (v : Vec α) : Nat := v.data.length

/-- Translation of capacity() (line 405): m_realend - m_begin. -/
def Vec.capacity (v : Vec α) : Nat := v.cap

/-- Operation counts observed during one call: element constructions (ctor),
element destructions (dtor), element assignments (asgn), and allocations of a
new block (alloc). -/
structure Ops where
  ctor : Nat
  dtor : Nat
  asgn : Nat
  alloc : Nat
  deriving DecidableEq

def Ops.zero : Ops := ⟨0, 0, 0, 0⟩

instance : Add Ops :=
  ⟨fun a b => ⟨a.ctor + b.ctor, a.dtor + b.dtor, a.asgn + b.asgn, a.alloc + b.alloc⟩⟩

/-- Error taxonomy of the header: allocation failure from the allocator,
length_error from the allocate wrappers, out_of_range from check_range. -/
inductive AErr where
  | allocationFailure
  | lengthError
  | outOfRange
  deriving DecidableEq

/-- Translation of emplace_back (lines 536-564), success path. The in-place
branch (m_end < m_realend) constructs the argument at m_end and advances
m_end; the source has no return statement there, so control always continues
into the reallocation code: oldsize = size(), newcap = size() * 2, a new
block is allocated, the argument is constructed again at tmp + oldsize, the
live elements are relocated to the front of the block, the old block is
deallocated directly (its elements are not destroyed), and the pointer triple
becomes (tmp, tmp + oldsize + 1, tmp + newcap). push_back (lines 567-573)
forwards to emplace_back. -/
def emplace_backC (v : Vec α) (x : α) : Vec α × Ops :=
  let d1 := if v.data.length < v.cap then v.data ++ [x] else v.data
  let c1 := if v.data.length < v.cap then 1 else 0
  let oldsize := d1.length
  let newcap := oldsize * 2
  (⟨d1 ++ [x], newcap⟩, ⟨c1 + 1 + oldsize, 0, 0, 1⟩)

/-- Translation of pop_back (lines 631-637): destroy the last live element
and retreat m_end. -/
def pop_back (v : Vec α) : Vec α × Ops :=
  (⟨v.data.dropLast, v.cap⟩, ⟨0, 1, 0, 0⟩)

/-- Translation of resize(count) (lines 459-487), success path, with d0 the
default-constructed element value. If count exceeds capacity(): allocate
count slots, relocate the live elements, default-construct into the slots
from tmp + size up to tmp + count, release the old storage, adopt the block.
Otherwise, if count exceeds size(), the source loops on the guard
size() > count, which is false throughout this branch, so nothing happens.
Otherwise pop until the size is count. -/
def resizeC (v : Vec α) (count : Nat) (d0 : α) : Vec α × Ops :=
  if v.cap < count then
    (⟨v.data ++ List.replicate (count - v.data.length) d0, count⟩,
      ⟨v.data.length + (count - v.data.length), v.data.length, 0, 1⟩)
  else if v.data.length < count then
    (v, Ops.zero)
  else
    (⟨v.data.take count, v.cap⟩, ⟨0, v.data.length - count, 0, 0⟩)

/-- Translation of check_range (lines 338-344): raise out_of_range exactly
when the index n is at least size(). -/
def check_range (v : Vec α) (n : Nat) : Except AErr Unit :=
  if v.data.length ≤ n then Except.error AErr.outOfRange else Except.ok ()

/-- Modelled from the spec: the relocation helper
uninitialized_move_if_noexcept_launder is declared in
simple/container_algorithm.h, which is not under src. Per spec section 4.3,
relocation copy-constructs when the element move constructor may throw, and
on a throw the helper destroys the partial prefix it had constructed before
letting the exception escape. The surrounding emplace_back code (lines
536-564) is translated exactly from src: the try block first constructs the
new element at tmp + oldsize, then relocates the oldsize live elements; the
catch block deallocates the new block and rethrows, without destroying the
element that emplace_back itself constructed. failAt numbers the element
operations of the try block: 0 is the construction of the new element, k in
[1, oldsize] is the relocation of element k-1. The result is the outcome
(an error means the exception propagated and the member pointers, hence
size, capacity and values, are unchanged) paired with the number of elements
left constructed but not destroyed in the deallocated block. -/
def emplace_backE (v : Vec α) (x : α) (failAt : Option Nat) :
    Except Unit (Vec α) × Nat :=
  let d1 := if v.data.length < v.cap then v.data ++ [x] else v.data
  let oldsize := d1.length
  let newcap := oldsize * 2
  match failAt with
  | none => (Except.ok ⟨d1 ++ [x], newcap⟩, 0)
  | some k =>
    if k = 0 then (Except.error (), 0)
    else if k ≤ oldsize then (Except.error (), 1)
    else (Except.ok ⟨d1 ++ [x], newcap⟩, 0)

/-- Translation of push_back applied to each element of a list in order;
every call goes through emplace_backC. Used by the move assignment
fallback. -/
def push_back_loop (v : Vec α) : List α → Vec α × Ops
  | [] => (v, Ops.zero)
  | x :: xs =>
    let p := emplace_backC v x
    let q := push_back_loop p.1 xs
    (q.1, p.2 + q.2)

/-- Translation of the move assignment operator (lines 212-270). prop models
propagate_on_container_move_assignment, aeq models is_always_equal, alleq
models equality of the two allocator instances. The result is the
assigned-to state, the source state, and the operation counts. When prop is
set, or when the fallback condition (not always-equal and allocators
unequal) fails, the operator releases the current storage (deallocate runs
clear, destroying the dst elements) and adopts the source pointer triple,
nulling the source pointers. Otherwise, if the source size exceeds dst
capacity, the source elements are move-constructed into a fresh block, dst
storage is released, the block is adopted, and the source pointers are left
untouched; else excess dst elements are popped, the overlapping prefix is
move-assigned from the source, and the remaining source elements are
appended through push_back. -/
def move_assignC (prop aeq alleq : Bool) (dst src : Vec α) :
    Vec α × Vec α × Ops :=
  if prop = true then
    (⟨src.data, src.cap⟩, ⟨[], 0⟩, ⟨0, dst.data.length, 0, 0⟩)
  else if aeq = false ∧ alleq = false then
    if dst.cap < src.data.length then
      (⟨src.data, src.data.length⟩, src, ⟨src.data.length, dst.data.length, 0, 1⟩)
    else
      let m := min dst.data.length src.data.length
      let popped := dst.data.length - src.data.length
      let p := push_back_loop ⟨src.data.take m, dst.cap⟩ (src.data.drop m)
      (p.1, src, (⟨0, popped, m, 0⟩ : Ops) + p.2)
  else
    (⟨src.data, src.cap⟩, ⟨[], 0⟩, ⟨0, dst.data.length, 0, 0⟩)

/-- Reverse cursor: base is the offset of the wrapped pointer from m_begin
(m_begin is offset 0, m_end is offset size). A reverse cursor built from a
pointer p dereferences to the element one slot before p, and advancing it by
k moves the wrapped pointer back by k slots, exactly as
std::reverse_iterator does. -/
structure RevIt where
  base : Int
  deriving DecidableEq

/-- Translation of rbegin (lines 397-398): m_begin converted to a reverse
cursor. -/
def rbegin (_v : Vec α) : RevIt := ⟨0⟩

/-- Translation of rend (lines 399-400): m_end converted to a reverse
cursor. -/
def rend (v : Vec α) : RevIt := ⟨(v.data.length : Int)⟩

/-- Dereference of a reverse cursor on a container: the element one slot
before the wrapped pointer, none when that slot is outside the live range. -/
def rget (v : Vec α) (r : RevIt) : Option α :=
  if r.base ≤ 0 then none else v.data.get? (r.base.toNat - 1)

/-- Advancing a reverse cursor by k moves the wrapped pointer back k slots. -/
def RevIt.advance (r : RevIt) (k : Nat) : RevIt := ⟨r.base - (k : Int)⟩

/-- Translation of front (lines 385-386): the element at m_begin. -/
def front? (v : Vec α) : Option α := v.data.get? 0

/-- Translation of back (lines 387-388): the element at m_end - 1. -/
def back? (v : Vec α) : Option α := v.data.get? (v.data.length - 1)

/-- C1: the claim says a push_back on a vector with spare capacity
(size < capacity) constructs the element in place, increases size by exactly
one, leaves capacity and the stored values unchanged, and returns without
running any reallocation logic. Evaluating the translated code on the vector
holding [5] with capacity 2 and argument 7 instead yields elements
[5, 7, 7] with size 3 and capacity 4, after four element constructions and
one allocation: the in-place branch has no return, so control falls into the
reallocation path, which appends the argument a second time. -/
theorem push_back_spare_capacity_falls_through :
    emplace_backC (⟨[5], 2⟩ : Vec Nat) 7 = (⟨[5, 7, 7], 4⟩, ⟨4, 0, 0, 1⟩) := by
  decide

/-- C2: the claim says that when element construction throws during a
growth-triggering emplace_back, every element already constructed in the new
block is destroyed. Evaluating the translated code on the vector holding [5]
with size = capacity = 1, argument 7, and a throw at try-block operation 1
(the relocation of element 0) propagates the exception with the container
unchanged, but leaves 1 element (the new element at tmp + oldsize)
constructed and never destroyed in the deallocated block: the catch only
deallocates. -/
theorem emplace_back_throw_leaks_constructed_element :
    emplace_backE (⟨[5], 1⟩ : Vec Nat) 7 (some 1) = (Except.error (), 1) := by
  rfl

/-- C3: the claim says a growth-triggering append sets the new capacity to
max(1, 2 times the previous capacity), so appending to a zero-capacity
vector yields a nonzero capacity. Evaluating the translated code on the
default-constructed vector (size 0, capacity 0) with argument 7 computes
newcap = size() * 2 = 0: a zero-slot block is allocated, the element is
constructed past it, and the resulting capacity is 0, not max(1, 0) = 1. -/
theorem grow_from_empty_zero_capacity :
    emplace_backC (⟨[], 0⟩ : Vec Nat) 7 = (⟨[7], 0⟩, ⟨1, 0, 0, 1⟩) := by
  decide

/-- C4: the claim says resize(n) with size < n <= capacity default-constructs
exactly n - size trailing elements and ends with size n. Evaluating the
translated code on the vector holding [5] with capacity 4 and count 3 takes
the middle branch, whose loop guard is size() > count; the guard is false
throughout this branch, so the loop body never runs and the state is
returned unchanged with size still 1. -/
theorem resize_grow_within_capacity_noop :
    resizeC (⟨[5], 4⟩ : Vec Nat) 3 0 = (⟨[5], 4⟩, Ops.zero) := by
  decide

/-- C5: the claim says that after every public operation
start <= live_end <= capacity_end, so size <= capacity. After push_back(7)
on the default-constructed vector the translated code leaves size 1 and
capacity 0, violating the invariant: m_end = tmp + 1 lies beyond
m_realend = tmp + 0. -/
theorem invariant_violated_after_append_to_empty :
    ¬ ((emplace_backC (⟨[], 0⟩ : Vec Nat) 7).1.size ≤
        (emplace_backC (⟨[], 0⟩ : Vec Nat) 7).1.capacity) := by
  decide

/-- C7: the bounds check of at (check_range, lines 338-344) raises
out_of_range exactly when the index is at least size(), for every container
state including the empty one. The in-range return statement of at itself is
the separate defect recorded for this claim. -/
theorem check_range_out_of_range_iff (v : Vec Nat) (n : Nat) :
    check_range v n = Except.error AErr.outOfRange ↔ v.size ≤ n := by
  by_cases h : v.data.length ≤ n
  · unfold check_range
    rw [if_pos h]
    exact iff_of_true rfl h
  · unfold check_range
    rw [if_neg h]
    exact iff_of_false (fun heq => Except.noConfusion heq) h

/-- C9 counterexample: with propagation off, always-equal off and unequal
allocator instances, moving the vector holding [1] into an empty destination
of capacity 0 leaves the source with its element and nonzero size and
capacity, while the claim says moved_from ends with size 0 and capacity 0;
and with propagation on, moving [20] over a destination holding [10] runs
one element destructor, while the claim says no destructor is invoked. -/
theorem move_assign_claim_fails :
    (move_assignC false false false (⟨[], 0⟩ : Vec Nat) ⟨[1], 1⟩).2.1 = (⟨[1], 1⟩ : Vec Nat) ∧
    (move_assignC true false false (⟨[10], 1⟩ : Vec Nat) ⟨[20], 1⟩).2.2.dtor = 1 := by
  decide

/-- C9 amended: when the move-propagation trait is set or the allocators are
always equal, move assignment releases the destination storage (running
destructors exactly on the prior destination elements), adopts the source
pointer triple and allocator, and afterwards the source has size 0 and
capacity 0 while the destination holds exactly the elements the source held
before, in order, with no element constructor or assignment invoked. -/
theorem move_assign_adopts (prop aeq alleq : Bool) (dst src : Vec Nat)
    (h : prop = true ∨ aeq = true) :
    move_assignC prop aeq alleq dst src =
      (⟨src.data, src.cap⟩, ⟨[], 0⟩, ⟨0, dst.size, 0, 0⟩) := by
  unfold move_assignC Vec.size
  rcases h with h | h
  · rw [if_pos h]
  · cases prop
    · rw [if_neg (by simp), if_neg (by simp [h])]
    · rw [if_pos rfl]

/-- C9 witness: move_assign_adopts with the propagation trait set, moving
the vector holding [20, 30] over a destination holding [10]. -/
theorem move_assign_adopts_witness :
    move_assignC true false false (⟨[10], 1⟩ : Vec Nat) ⟨[20, 30], 2⟩ =
      (⟨[20, 30], 2⟩, ⟨[], 0⟩, ⟨0, 1, 0, 0⟩) :=
  move_assign_adopts true false false ⟨[10], 1⟩ ⟨[20, 30], 2⟩ (Or.inl rfl)

/-- C10: the claim says the reverse cursor pair iterates the elements in
reverse order: dereferencing rbegin yields back(), the element just before
rend is front(), and rbegin advanced by size reaches rend. On the vector
holding [1, 2], the translated cursors give: dereferencing rbegin reads the
slot before the buffer (none, not back() = 2); the cursor one step before
the last position likewise reads outside the buffer (none, not
front() = 1); and rbegin advanced by size has base -2, which is not rend
(base 2): rbegin wraps m_begin and rend wraps m_end, the reverse of the
correct construction. -/
theorem reverse_cursor_pair_broken :
    rget (⟨[1, 2], 2⟩ : Vec Nat) (rbegin ⟨[1, 2], 2⟩) = none ∧
    back? (⟨[1, 2], 2⟩ : Vec Nat) = some 2 ∧
    rget (⟨[1, 2], 2⟩ : Vec Nat) ((rbegin (⟨[1, 2], 2⟩ : Vec Nat)).advance 1) = none ∧
    front? (⟨[1, 2], 2⟩ : Vec Nat) = some 1 ∧
    (rbegin (⟨[1, 2], 2⟩ : Vec Nat)).advance 2 ≠ rend (⟨[1, 2], 2⟩ : Vec Nat) := by
  decide

end Simple
